import Mathlib

/-!
Verification of the SaGe SPARQL HTTP interface.

This file gives a shallow embedding of `sage/http_server/sparql_interface.py`
(the `execute_query` helper and the two Flask routes, `sparql_index` and the
deprecated `sparql_query`) and of the generated gRPC servicer in
`sage/grpc/service_pb2_grpc.py`, together with theorems about the transaction
discipline, continuation handling and error paths.

External collaborators (the query engine, the saved-plan store, the plan
serializer/loader, the parser and the optimizer) live outside the embedded
source files; they are modelled from the specification as explicit oracle
parameters (`Env`) or as a small reference implementation (`PlanStore`), so
that every control-flow decision made by the embedded code itself is taken
verbatim from the Python source. Exceptions raised by collaborators are
modelled as `Option`/`Except` failures; wall-clock timing fields of the
`stats` dictionary are omitted (no claim concerns them); the four result
mime-types are collapsed into a single `results` response constructor, since
all of them receive the same `bindings`, `next_page` and `stats` values.
-/

namespace Sage

/-- An opaque continuation token: in stateless mode the encoded serialized
plan itself, in stateful mode a plan id. Both are plain strings in the
source. -/
abbrev Token := String

/-- A saved-plan id (a UUID string in the source). -/
abbrev PlanId := String

/-- Abstract handle for a physical query plan (the object produced by
`parse_query` / `load` and consumed by `SageEngine.execute`). -/
abbrev Plan := Nat

/-- Abstract solution binding. -/
abbrev Binding := Nat

/-- Abstract serialized plan as returned by the engine, before
`encode_saved_plan` turns it into a token. -/
abbrev SavedPlan := Nat

/-- Cardinality annotations returned by `parse_query` alongside the plan
(a dict from pattern to integer in the source). -/
abbrev Cardinalities := List (String × Nat)

/-- Modelled from the spec: the saved-plan store behind
`dataset.statefull_manager` (spec section 4.7, component C7), whose code is
not among the embedded source files. Contract from the spec: `save(id,
token)`, `get(id) -> token | miss`, `delete(id)`, with `save` overwriting the
entry for an existing id. Modelled as an association list keyed by id. -/
abbrev PlanStore := List (PlanId × Token)

/-- Modelled from the spec: `get(id) -> token | miss` on the saved-plan
store. -/
def PlanStore.get_plan (s : PlanStore) (id : PlanId) : Option Token :=
  (s.find? (fun e => e.1 == id)).map (fun e => e.2)

/-- Modelled from the spec: `save(id, token)`, overwriting any existing entry
for `id` (atomic replacement on resumption). -/
def PlanStore.save_plan (s : PlanStore) (id : PlanId) (t : Token) : PlanStore :=
  (id, t) :: s.filter (fun e => e.1 != id)

/-- Modelled from the spec: `delete(id)` removes the entry for `id`. -/
def PlanStore.delete_plan (s : PlanStore) (id : PlanId) : PlanStore :=
  s.filter (fun e => e.1 != id)

/-- A graph handle: `quota` is the per-graph quota in milliseconds and
`max_results` the per-graph result cap, both immutable configuration
(spec section 3 and section 6). -/
structure Graph where
  quota : Nat
  max_results : Nat
deriving DecidableEq

/-- The dataset registry (spec component C8): named-graph lookup, the
stateless-vs-stateful mode flag, and the saved-plan store state. -/
structure Dataset where
  graphs : List (String × Graph)
  is_stateless : Bool
  statefull_manager : PlanStore
deriving DecidableEq

/-- `dataset.get_graph(name)`: named-graph lookup. -/
def Dataset.get_graph (d : Dataset) (name : String) : Option Graph :=
  (d.graphs.find? (fun e => e.1 == name)).map (fun e => e.2)

/-- `dataset.has_graph(name)`. -/
def Dataset.has_graph (d : Dataset) (name : String) : Bool :=
  (d.get_graph name).isSome

/-- Modelled from the spec: the result quadruple of `SageEngine.execute`
(spec section 4.5): `(bindings, saved_plan, is_done, abort_reason)`. -/
structure EngineResult where
  bindings : List Binding
  saved_plan : SavedPlan
  is_done : Bool
  abort_reason : Option String
deriving DecidableEq

/-- Modelled from the spec: the collaborators called by the embedded handlers
whose code is not among the embedded source files. Each is an oracle
parameter; a run of a handler is relative to one `Env`.

  * `format_graph_uri` : pure URI formatting helper;
  * `loadPlan` : the composition `load(decode_saved_plan(token), dataset)`;
    `none` models a raised exception (token cannot be decoded);
  * `parse_query` : parser/optimizer; `.error msg` models a raised
    `UnsupportedSPARQL(msg)`; on success returns the plan and the
    cardinality annotations (the `dataset` argument is implicit in the
    oracle);
  * `engine` : `SageEngine().execute(plan, quota, max_results)`; the quota
    argument is a rational because the caller passes the Python true-division
    result `graph.quota / 1000`, modelled exactly over the rationals;
  * `encode_saved_plan` : plan-to-token encoder;
  * `build_query_plan` : the legacy optimizer entry used by the deprecated
    route, taking the query text, the graph name and an optional saved plan;
  * `uuid` : the value `str(uuid4())` returns in this request. -/
structure Env where
  format_graph_uri : Option String → String → String
  loadPlan : Token → Option Plan
  parse_query : String → String → String → Except String (Plan × Cardinalities)
  engine : Plan → ℚ → Nat → EngineResult
  encode_saved_plan : SavedPlan → Token
  build_query_plan : String → String → Option Token → Plan × Cardinalities
  uuid : String

/-- Exceptions escaping `execute_query`: `unsupportedSPARQL` models the typed
`UnsupportedSPARQL` exception, `generic` models every other exception (in
particular the failures of decoding or looking up a continuation, for which
the source has no dedicated class). -/
inductive Exn
  | unsupportedSPARQL (msg : String)
  | generic
deriving DecidableEq

/-- The `stats` dictionary of a response; the wall-clock `import`/`export`
timing entries are omitted. -/
structure Stats where
  cardinalities : Cardinalities
deriving DecidableEq

/-- HTTP responses produced by the embedded handlers. `results` stands for
any of the four result serializations (they all carry the same bindings,
next page and stats); `sageError` is the page built by the
`sage_http_error` helper (whose own code is outside the embedded files);
`notFound404` and `serverError500` are the Flask `abort(404)` / `abort(500)`
responses. -/
inductive HttpResponse
  | results (bindings : List Binding) (next : Option String) (stats : Stats)
  | sageError (body : String)
  | notFound404
  | serverError500
deriving DecidableEq

/-- The `next` page advertised by a response (null for non-result
responses). -/
def HttpResponse.nextPage : HttpResponse → Option String
  | .results _ n _ => n
  | _ => none

/-- Transaction operations performed on the resolved graph. -/
inductive TxEvent
  | commit
  | abort
deriving DecidableEq

deriving instance DecidableEq for Except

/-- Observable outcome of one handler run: the response (or escaped
exception), the ordered list of transaction events on the resolved graph,
the final saved-plan store state, and the argument lists of the calls to
`engine.execute`, `save_plan` and `delete_plan`. -/
structure RunResult where
  response : Except Exn HttpResponse
  events : List TxEvent
  store : PlanStore
  engineCalls : List (Plan × ℚ × Nat)
  saveCalls : List (PlanId × Token)
  deleteCalls : List PlanId
deriving DecidableEq

/-- Lines 31-41 of `sparql_interface.py`: decode `next_link` into a plan, or
build a fresh plan from the query text. On the continuation branch the
`cardinalities` dict stays empty; a store miss or a decode failure raises
(modelled `.error .generic`); a parser failure raises `UnsupportedSPARQL`. -/
def plan_step (env : Env) (query : String) (next_link : Option Token)
    (dataset : Dataset) (graph_name url : String) :
    Except Exn (Plan × Cardinalities) :=
  match next_link with
  | some nl =>
    let saved_plan? : Option Token :=
      if dataset.is_stateless then some nl
      else dataset.statefull_manager.get_plan nl
    match saved_plan? with
    | none => .error .generic
    | some sp =>
      match env.loadPlan sp with
      | none => .error .generic
      | some p => .ok (p, [])
  | none =>
    match env.parse_query query graph_name url with
    | .error msg => .error (.unsupportedSPARQL msg)
    | .ok pc => .ok pc

/-- Shallow embedding of `execute_query` (lines 19-87 of
`sparql_interface.py`). The graph is resolved through the registry; the plan
is obtained by `plan_step`; the engine is invoked with
`quota = graph.quota / 1000` (Python true division, modelled over ℚ) and
`graph.max_results`; then the commit/abort pairing, the continuation
book-keeping on lines 59-69 and the response construction are transcribed
branch by branch. An exception raised before the graph is resolved escapes
without any transaction event; one raised after resolution triggers
`graph.abort()` in the `except` block before re-raising. -/
def execute_query (env : Env) (query : String) (default_graph_uri : Option String)
    (next_link : Option Token) (dataset : Dataset) (url : String) : RunResult :=
  let graph_name := env.format_graph_uri default_graph_uri url
  match dataset.get_graph graph_name with
  | none =>
    { response := .ok (.sageError "No RDF graph matching the default URI provided was found."),
      events := [], store := dataset.statefull_manager,
      engineCalls := [], saveCalls := [], deleteCalls := [] }
  | some graph =>
    match plan_step env query next_link dataset graph_name url with
    | .error e =>
      { response := .error e, events := [.abort], store := dataset.statefull_manager,
        engineCalls := [], saveCalls := [], deleteCalls := [] }
    | .ok (plan, cardinalities) =>
      let quota : ℚ := (graph.quota : ℚ) / 1000
      let r := env.engine plan quota graph.max_results
      let calls := [(plan, quota, graph.max_results)]
      match r.abort_reason with
      | some reason =>
        { response := .ok (.sageError
            ("The SPARQL query has been aborted for the following reason: '"
              ++ reason ++ "'")),
          events := [.abort], store := dataset.statefull_manager,
          engineCalls := calls, saveCalls := [], deleteCalls := [] }
      | none =>
        if r.is_done = false then
          let token := env.encode_saved_plan r.saved_plan
          if dataset.is_stateless = false then
            let plan_id := match next_link with
              | some nl => nl
              | none => env.uuid
            { response := .ok (.results r.bindings (some plan_id) ⟨cardinalities⟩),
              events := [.commit],
              store := dataset.statefull_manager.save_plan plan_id token,
              engineCalls := calls, saveCalls := [(plan_id, token)], deleteCalls := [] }
          else
            { response := .ok (.results r.bindings (some token) ⟨cardinalities⟩),
              events := [.commit], store := dataset.statefull_manager,
              engineCalls := calls, saveCalls := [], deleteCalls := [] }
        else
          match next_link with
          | some nl =>
            if dataset.is_stateless = false then
              { response := .ok (.results r.bindings none ⟨cardinalities⟩),
                events := [.commit],
                store := dataset.statefull_manager.delete_plan nl,
                engineCalls := calls, saveCalls := [], deleteCalls := [nl] }
            else
              { response := .ok (.results r.bindings none ⟨cardinalities⟩),
                events := [.commit], store := dataset.statefull_manager,
                engineCalls := calls, saveCalls := [], deleteCalls := [] }
          | none =>
            { response := .ok (.results r.bindings none ⟨cardinalities⟩),
              events := [.commit], store := dataset.statefull_manager,
              engineCalls := calls, saveCalls := [], deleteCalls := [] }

/-- Shallow embedding of the exception handling of the `sparql_index` route
(lines 122-129): the request is delegated to `execute_query`; a raised
`UnsupportedSPARQL` becomes a `sage_http_error` page with the message, and
any other exception becomes `abort(500)`. -/
def sparql_index (env : Env) (query : String) (default_graph_uri : Option String)
    (next_link : Option Token) (dataset : Dataset) (url : String) : RunResult :=
  let r := execute_query env query default_graph_uri next_link dataset url
  match r.response with
  | .ok resp => { r with response := .ok resp }
  | .error (.unsupportedSPARQL msg) => { r with response := .ok (.sageError msg) }
  | .error .generic => { r with response := .ok .serverError500 }

/-- Shallow embedding of the deprecated `/sparql/<graph_name>` route
`sparql_query` (lines 131-217), restricted to its JSON POST branch (the GET
branch renders the dataset homepage and performs no execution). The
transcription keeps the source quirk the claims are about: the local
`next_link` is initialised to `None` on line 166 and never reassigned; the
block on lines 167-172 loads a plan from the `next` field of the request
into a local that line 176 immediately overwrites with
`build_query_plan(query, dataset, graph_name, next_link)`. Any exception is
caught on line 213, triggering `graph.abort()` and `abort(500)`. The block
on lines 165-172 that loads a plan from the `next` field is factored out as
`legacy_load_step`, since its only observable outcome is whether it
raises. -/
def legacy_load_step (env : Env) (next_field : Option Token) (dataset : Dataset) :
    Except Unit Unit :=
  match next_field with
  | some nf =>
    let saved_plan? : Option Token :=
      if dataset.is_stateless then some nf
      else dataset.statefull_manager.get_plan nf
    match saved_plan? with
    | none => .error ()
    | some sp =>
      match env.loadPlan sp with
      | none => .error ()
      | some _ => .ok ()
  | none => .ok ()

/-- Shallow embedding of the body of the deprecated route after
`legacy_load_step`: plan building from the query text (line 176), execution,
commit/abort pairing and continuation book-keeping, transcribed exactly like
in `execute_query`. -/
def sparql_query (env : Env) (graph_name : String) (query : String)
    (next_field : Option Token) (dataset : Dataset) : RunResult :=
  match dataset.get_graph graph_name with
  | none =>
    { response := .ok .notFound404, events := [], store := dataset.statefull_manager,
      engineCalls := [], saveCalls := [], deleteCalls := [] }
  | some graph =>
    let quota : ℚ := (graph.quota : ℚ) / 1000
    let max_results := graph.max_results
    let next_link : Option Token := none
    match legacy_load_step env next_field dataset with
    | .error _ =>
      { response := .ok .serverError500, events := [.abort], store := dataset.statefull_manager,
        engineCalls := [], saveCalls := [], deleteCalls := [] }
    | .ok _ =>
      let pc := env.build_query_plan query graph_name next_link
      let plan := pc.1
      let cardinalities := pc.2
      let r := env.engine plan quota max_results
      let calls := [(plan, quota, max_results)]
      match r.abort_reason with
      | some reason =>
        { response := .ok (.sageError
            ("The SPARQL query has been aborted for the following reason: '"
              ++ reason ++ "'")),
          events := [.abort], store := dataset.statefull_manager,
          engineCalls := calls, saveCalls := [], deleteCalls := [] }
      | none =>
        if r.is_done = false then
          let token := env.encode_saved_plan r.saved_plan
          if dataset.is_stateless = false then
            let plan_id := match next_link with
              | some nl => nl
              | none => env.uuid
            { response := .ok (.results r.bindings (some plan_id) ⟨cardinalities⟩),
              events := [.commit],
              store := dataset.statefull_manager.save_plan plan_id token,
              engineCalls := calls, saveCalls := [(plan_id, token)], deleteCalls := [] }
          else
            { response := .ok (.results r.bindings (some token) ⟨cardinalities⟩),
              events := [.commit], store := dataset.statefull_manager,
              engineCalls := calls, saveCalls := [], deleteCalls := [] }
        else
          match next_link with
          | some nl =>
            if dataset.is_stateless = false then
              { response := .ok (.results r.bindings none ⟨cardinalities⟩),
                events := [.commit],
                store := dataset.statefull_manager.delete_plan nl,
                engineCalls := calls, saveCalls := [], deleteCalls := [nl] }
            else
              { response := .ok (.results r.bindings none ⟨cardinalities⟩),
                events := [.commit], store := dataset.statefull_manager,
                engineCalls := calls, saveCalls := [], deleteCalls := [] }
          | none =>
            { response := .ok (.results r.bindings none ⟨cardinalities⟩),
              events := [.commit], store := dataset.statefull_manager,
              engineCalls := calls, saveCalls := [], deleteCalls := [] }

/-- gRPC status codes relevant to the embedded servicer. -/
inductive GrpcStatusCode
  | unimplemented
deriving DecidableEq

/-- The mutable gRPC call context: the status code and details set on it. -/
structure GrpcContext where
  code : Option GrpcStatusCode
  details : Option String
deriving DecidableEq

/-- Outcome of a gRPC handler call: the final context, the message of the
raised exception if any, and the list of queries executed through this
transport while handling the call. -/
structure GrpcOutcome where
  context : GrpcContext
  raised : Option String
  executedQueries : List String
deriving DecidableEq

/-- Shallow embedding of `SageSPARQLServicer.Query` (lines 28-33 of
`service_pb2_grpc.py`): it sets the UNIMPLEMENTED status code and details on
the context and raises `NotImplementedError`, executing nothing. -/
def SageSPARQLServicer.Query (request : String) (ctx : GrpcContext) : GrpcOutcome :=
  let _ := request
  let _ := ctx
  { context := { code := some .unimplemented, details := some "Method not implemented!" },
    raised := some "Method not implemented!",
    executedQueries := [] }

/-- A fixture environment for concrete evaluations: one graph named g with a
1500 ms quota, a parser producing plan 7, an engine that finishes cleanly. -/
def envA : Env where
  format_graph_uri := fun dgu _ => dgu.getD ""
  loadPlan := fun _ => some 9
  parse_query := fun _ _ _ => .ok (7, [("tp1", 42)])
  engine := fun _ _ _ => { bindings := [1, 2], saved_plan := 5, is_done := true, abort_reason := none }
  encode_saved_plan := fun sp => "enc" ++ toString sp
  build_query_plan := fun _ _ _ => (7, [("tp1", 42)])
  uuid := "uuid-1"

/-- A fixture environment whose engine suspends (is_done false, no abort). -/
def envB : Env where
  format_graph_uri := fun dgu _ => dgu.getD ""
  loadPlan := fun _ => some 9
  parse_query := fun _ _ _ => .ok (7, [("tp1", 42)])
  engine := fun _ _ _ => { bindings := [1], saved_plan := 5, is_done := false, abort_reason := none }
  encode_saved_plan := fun sp => "enc" ++ toString sp
  build_query_plan := fun _ _ _ => (7, [("tp1", 42)])
  uuid := "uuid-1"

/-- A fixture environment whose engine aborts with a reason. -/
def envC : Env where
  format_graph_uri := fun dgu _ => dgu.getD ""
  loadPlan := fun _ => some 9
  parse_query := fun _ _ _ => .ok (7, [("tp1", 42)])
  engine := fun _ _ _ => { bindings := [], saved_plan := 5, is_done := false, abort_reason := some "timeout" }
  encode_saved_plan := fun sp => "enc" ++ toString sp
  build_query_plan := fun _ _ _ => (7, [("tp1", 42)])
  uuid := "uuid-1"

/-- A stateless fixture dataset with one graph named g (quota 1500 ms,
max_results 10). -/
def dsA : Dataset where
  graphs := [("g", { quota := 1500, max_results := 10 })]
  is_stateless := true
  statefull_manager := []

/-- A stateful fixture dataset with one graph named g and an empty saved-plan
store. -/
def dsB : Dataset where
  graphs := [("g", { quota := 1500, max_results := 10 })]
  is_stateless := false
  statefull_manager := []

/-- A stateful fixture dataset with one saved plan stored under id0. -/
def dsC : Dataset where
  graphs := [("g", { quota := 1500, max_results := 10 })]
  is_stateless := false
  statefull_manager := [("id0", "tok0")]

theorem PlanStore.get_plan_save_plan (s : PlanStore) (id : PlanId) (t : Token) :
    (s.save_plan id t).get_plan id = some t := by
  simp [PlanStore.get_plan, PlanStore.save_plan, List.find?]

theorem PlanStore.get_plan_delete_plan (s : PlanStore) (id : PlanId) :
    (s.delete_plan id).get_plan id = none := by
  have h : (s.delete_plan id).find? (fun e => e.1 == id) = none := by
    rw [List.find?_eq_none]
    intro x hx
    have hne := (List.mem_filter.mp hx).2
    simp only [bne_iff_ne, ne_eq] at hne
    simpa using hne
  simp [PlanStore.get_plan, h]

/-- Claim C9: for every request, the gRPC `SageSPARQLServicer.Query` method
sets status code UNIMPLEMENTED on the call context, sets the details string,
and raises `NotImplementedError`; no query is ever executed through the gRPC
transport. -/
theorem grpc_query_unimplemented (request : String) (ctx : GrpcContext) :
    (SageSPARQLServicer.Query request ctx).context.code = some GrpcStatusCode.unimplemented
    ∧ (SageSPARQLServicer.Query request ctx).context.details = some "Method not implemented!"
    ∧ (SageSPARQLServicer.Query request ctx).raised = some "Method not implemented!"
    ∧ (SageSPARQLServicer.Query request ctx).executedQueries = [] :=
  ⟨rfl, rfl, rfl, rfl⟩

/-- Claim C8: in the deprecated `/sparql/<graph_name>` handler the local
`next_link` is never assigned from the request's `next` field, so the plan
loaded from a supplied continuation is discarded in favor of a plan rebuilt
from the query text (every engine call uses
`build_query_plan(query, graph_name, None)`), every suspension stores the
plan under the freshly generated UUID, and `delete_plan` is never invoked. -/
theorem sparql_query_ignores_next (env : Env) (graph_name query : String)
    (next_field : Option Token) (dataset : Dataset) :
    (sparql_query env graph_name query next_field dataset).deleteCalls = []
    ∧ ((sparql_query env graph_name query next_field dataset).engineCalls.all
        (fun c => c.1 == (env.build_query_plan query graph_name none).1)) = true
    ∧ ((sparql_query env graph_name query next_field dataset).saveCalls.all
        (fun s => s.1 == env.uuid)) = true := by
  rcases hG : dataset.get_graph graph_name with _ | graph
  · simp [sparql_query, hG]
  · rcases hL : legacy_load_step env next_field dataset with u | u
    · simp [sparql_query, hG, hL]
    · rcases hA : (env.engine (env.build_query_plan query graph_name none).1
          ((graph.quota : ℚ) / 1000) graph.max_results).abort_reason with _ | reason
      · rcases hd : (env.engine (env.build_query_plan query graph_name none).1
            ((graph.quota : ℚ) / 1000) graph.max_results).is_done with _ | _
        · rcases hs : dataset.is_stateless with _ | _
          · simp [sparql_query, hG, hL, hA, hd, hs]
          · simp [sparql_query, hG, hL, hA, hd, hs]
        · simp [sparql_query, hG, hL, hA, hd]
      · simp [sparql_query, hG, hL, hA]

theorem engineCalls_eq_of_plan_step (env : Env) (query : String)
    (default_graph_uri : Option String) (next_link : Option Token)
    (dataset : Dataset) (url : String) (g : Graph) (plan : Plan) (cards : Cardinalities)
    (hg : dataset.get_graph (env.format_graph_uri default_graph_uri url) = some g)
    (hp : plan_step env query next_link dataset (env.format_graph_uri default_graph_uri url) url
        = .ok (plan, cards)) :
    (execute_query env query default_graph_uri next_link dataset url).engineCalls
      = [(plan, (g.quota : ℚ) / 1000, g.max_results)] := by
  rcases hA : (env.engine plan ((g.quota : ℚ) / 1000) g.max_results).abort_reason with _ | reason
  · rcases hd : (env.engine plan ((g.quota : ℚ) / 1000) g.max_results).is_done with _ | _
    · rcases hs : dataset.is_stateless with _ | _
      · simp [execute_query, hg, hp, hA, hd, hs]
      · simp [execute_query, hg, hp, hA, hd, hs]
    · rcases next_link with _ | nl
      · simp [execute_query, hg, hp, hA, hd]
      · rcases hs : dataset.is_stateless with _ | _
        · simp [execute_query, hg, hp, hA, hd, hs]
        · simp [execute_query, hg, hp, hA, hd, hs]
  · simp [execute_query, hg, hp, hA]

/-- Claim C1: for every request handled by `execute_query` on which the
default graph resolves, exactly one of `graph.commit()` or `graph.abort()`
is performed on the resolved graph; `commit` exactly when the run produces a
result page (successful finish or clean suspension), `abort` on any failure
or engine abort; never both and never neither. -/
theorem execute_query_transaction_pairing (env : Env) (query : String)
    (default_graph_uri : Option String) (next_link : Option Token)
    (dataset : Dataset) (url : String) (g : Graph)
    (hg : dataset.get_graph (env.format_graph_uri default_graph_uri url) = some g) :
    ((execute_query env query default_graph_uri next_link dataset url).events = [TxEvent.commit]
      ∨ (execute_query env query default_graph_uri next_link dataset url).events = [TxEvent.abort])
    ∧ ((execute_query env query default_graph_uri next_link dataset url).events = [TxEvent.commit]
      ↔ ∃ b n s, (execute_query env query default_graph_uri next_link dataset url).response
          = Except.ok (HttpResponse.results b n s)) := by
  rcases hp : plan_step env query next_link dataset
      (env.format_graph_uri default_graph_uri url) url with e | ⟨plan, cards⟩
  · simp [execute_query, hg, hp]
  · rcases hA : (env.engine plan ((g.quota : ℚ) / 1000) g.max_results).abort_reason with _ | reason
    · rcases hd : (env.engine plan ((g.quota : ℚ) / 1000) g.max_results).is_done with _ | _
      · rcases hs : dataset.is_stateless with _ | _
        · simp [execute_query, hg, hp, hA, hd, hs]
        · simp [execute_query, hg, hp, hA, hd, hs]
      · rcases next_link with _ | nl
        · simp [execute_query, hg, hp, hA, hd]
        · rcases hs : dataset.is_stateless with _ | _
          · simp [execute_query, hg, hp, hA, hd, hs]
          · simp [execute_query, hg, hp, hA, hd, hs]
    · simp [execute_query, hg, hp, hA]

/-- Witness for `execute_query_transaction_pairing` at a concrete input. -/
theorem execute_query_transaction_pairing_witness :
    dsA.get_graph (envA.format_graph_uri (some "g") "u") = some { quota := 1500, max_results := 10 }
    ∧ (((execute_query envA "q" (some "g") none dsA "u").events = [TxEvent.commit]
        ∨ (execute_query envA "q" (some "g") none dsA "u").events = [TxEvent.abort])
      ∧ ((execute_query envA "q" (some "g") none dsA "u").events = [TxEvent.commit]
        ↔ ∃ b n s, (execute_query envA "q" (some "g") none dsA "u").response
            = Except.ok (HttpResponse.results b n s))) :=
  ⟨by decide, execute_query_transaction_pairing envA "q" (some "g") none dsA "u"
      { quota := 1500, max_results := 10 } (by decide)⟩

/-- Claim C2 (counterexample): the engine is not invoked with the configured
per-graph `quota_ms` passed through unchanged; on a graph configured with
`quota = 1500` milliseconds the engine receives `1500 / 1000 = 3/2`. -/
theorem execute_query_quota_not_unchanged :
    dsA.get_graph (envA.format_graph_uri (some "g") "u") = some { quota := 1500, max_results := 10 }
    ∧ (execute_query envA "q" (some "g") none dsA "u").engineCalls = [(7, (3 : ℚ) / 2, 10)]
    ∧ (3 : ℚ) / 2 ≠ (1500 : ℚ) := by
  refine ⟨by decide, ?_, by norm_num⟩
  norm_num [execute_query, plan_step, envA, dsA, Dataset.get_graph, List.find?]

/-- Claim C2 (amended): for every request that reaches execution, the engine
is invoked exactly once, as `execute(plan, quota, max_results)` where
`quota` is the per-graph `quota` configuration divided by 1000 (Python true
division, converting milliseconds to seconds) and `max_results` is the
per-graph result cap passed through unchanged. -/
theorem execute_query_engine_call_divided (env : Env) (query : String)
    (default_graph_uri : Option String) (next_link : Option Token)
    (dataset : Dataset) (url : String) (g : Graph) (plan : Plan) (cards : Cardinalities)
    (hg : dataset.get_graph (env.format_graph_uri default_graph_uri url) = some g)
    (hp : plan_step env query next_link dataset (env.format_graph_uri default_graph_uri url) url
        = .ok (plan, cards)) :
    (execute_query env query default_graph_uri next_link dataset url).engineCalls
      = [(plan, (g.quota : ℚ) / 1000, g.max_results)] :=
  engineCalls_eq_of_plan_step env query default_graph_uri next_link dataset url g plan cards hg hp

/-- Witness for `execute_query_engine_call_divided` at a concrete input. -/
theorem execute_query_engine_call_divided_witness :
    dsA.get_graph (envA.format_graph_uri (some "g") "u") = some { quota := 1500, max_results := 10 }
    ∧ plan_step envA "q" none dsA (envA.format_graph_uri (some "g") "u") "u" = .ok (7, [("tp1", 42)])
    ∧ (execute_query envA "q" (some "g") none dsA "u").engineCalls
        = [(7, (((1500 : ℕ) : ℚ)) / 1000, 10)] :=
  ⟨by decide, by decide,
    execute_query_engine_call_divided envA "q" (some "g") none dsA "u"
      { quota := 1500, max_results := 10 } 7 [("tp1", 42)] (by decide) (by decide)⟩

/-- Claim C3: whenever `engine.execute` returns a non-None `abort_reason`,
`execute_query` performs `graph.abort()` (and no commit), returns the
`sage_http_error` page whose body contains the reason string, and emits no
continuation: the advertised next page is null, nothing is saved, and the
saved-plan store is unchanged. -/
theorem execute_query_engine_abort (env : Env) (query : String)
    (default_graph_uri : Option String) (next_link : Option Token)
    (dataset : Dataset) (url : String) (g : Graph) (plan : Plan) (cards : Cardinalities)
    (reason : String)
    (hg : dataset.get_graph (env.format_graph_uri default_graph_uri url) = some g)
    (hp : plan_step env query next_link dataset (env.format_graph_uri default_graph_uri url) url
        = .ok (plan, cards))
    (hA : (env.engine plan ((g.quota : ℚ) / 1000) g.max_results).abort_reason = some reason) :
    (execute_query env query default_graph_uri next_link dataset url).response
      = Except.ok (HttpResponse.sageError
          ("The SPARQL query has been aborted for the following reason: '" ++ reason ++ "'"))
    ∧ (execute_query env query default_graph_uri next_link dataset url).events = [TxEvent.abort]
    ∧ (execute_query env query default_graph_uri next_link dataset url).saveCalls = []
    ∧ (execute_query env query default_graph_uri next_link dataset url).store
        = dataset.statefull_manager
    ∧ (execute_query env query default_graph_uri next_link dataset url).response.map
        HttpResponse.nextPage = Except.ok none := by
  simp [execute_query, hg, hp, hA, HttpResponse.nextPage, Except.map]

/-- Witness for `execute_query_engine_abort` at a concrete input. -/
theorem execute_query_engine_abort_witness :
    dsA.get_graph (envC.format_graph_uri (some "g") "u") = some { quota := 1500, max_results := 10 }
    ∧ plan_step envC "q" none dsA (envC.format_graph_uri (some "g") "u") "u" = .ok (7, [("tp1", 42)])
    ∧ (envC.engine 7 ((((1500 : ℕ) : ℚ)) / 1000) 10).abort_reason = some "timeout"
    ∧ (execute_query envC "q" (some "g") none dsA "u").response
        = Except.ok (HttpResponse.sageError
            ("The SPARQL query has been aborted for the following reason: '" ++ "timeout" ++ "'")) :=
  ⟨by decide, by decide, by decide,
    (execute_query_engine_abort envC "q" (some "g") none dsA "u"
      { quota := 1500, max_results := 10 } 7 [("tp1", 42)] "timeout"
      (by decide) (by decide) (by decide)).1⟩

/-- Claim C4 (counterexample): a request whose continuation references a
saved plan missing from the stateful store does NOT leave the transaction
untouched: `graph.abort()` is performed on the resolved graph, and the
`sparql_index` caller surfaces the failure as a 500 server error rather than
a client error. -/
theorem invalid_continuation_aborts_counterexample :
    (execute_query envA "q" (some "g") (some "missing") dsB "u").events = [TxEvent.abort]
    ∧ (sparql_index envA "q" (some "g") (some "missing") dsB "u").response
        = Except.ok HttpResponse.serverError500 := by
  constructor <;> decide

/-- Claim C4 (amended): for every request presenting a continuation token
that cannot be decoded or that references a missing saved plan (after the
graph resolves), the failure escapes `execute_query` as an exception after
`graph.abort()` is performed on the resolved graph; no commit happens, no
engine call happens, the store is unchanged, and `sparql_index` surfaces the
failure as a 500 server error. -/
theorem invalid_continuation_behavior (env : Env) (query : String)
    (default_graph_uri : Option String) (nl : Token) (dataset : Dataset) (url : String)
    (g : Graph)
    (hg : dataset.get_graph (env.format_graph_uri default_graph_uri url) = some g)
    (hp : plan_step env query (some nl) dataset (env.format_graph_uri default_graph_uri url) url
        = .error .generic) :
    (execute_query env query default_graph_uri (some nl) dataset url).response
      = Except.error Exn.generic
    ∧ (execute_query env query default_graph_uri (some nl) dataset url).events = [TxEvent.abort]
    ∧ (execute_query env query default_graph_uri (some nl) dataset url).store
        = dataset.statefull_manager
    ∧ (execute_query env query default_graph_uri (some nl) dataset url).saveCalls = []
    ∧ (execute_query env query default_graph_uri (some nl) dataset url).engineCalls = []
    ∧ (sparql_index env query default_graph_uri (some nl) dataset url).response
        = Except.ok HttpResponse.serverError500 := by
  simp [execute_query, sparql_index, hg, hp]

/-- Witness for `invalid_continuation_behavior` at a concrete input. -/
theorem invalid_continuation_behavior_witness :
    dsB.get_graph (envA.format_graph_uri (some "g") "u") = some { quota := 1500, max_results := 10 }
    ∧ plan_step envA "q" (some "missing") dsB (envA.format_graph_uri (some "g") "u") "u"
        = .error .generic
    ∧ (execute_query envA "q" (some "g") (some "missing") dsB "u").events = [TxEvent.abort] :=
  ⟨by decide, by decide,
    (invalid_continuation_behavior envA "q" (some "g") "missing" dsB "u"
      { quota := 1500, max_results := 10 } (by decide) (by decide)).2.1⟩

/-- Claim C5: in stateful mode, whenever an execution resumed from a
continuation id finishes with `is_done = true` (and no engine abort), the
saved plan stored under that id is deleted, so the final store has no entry
for the id and a further resumption attempt with the same token takes the
invalid-continuation failure path. -/
theorem stateful_completion_deletes_plan (env : Env) (query query2 : String)
    (default_graph_uri : Option String) (nl : Token) (dataset : Dataset) (url : String)
    (g : Graph) (plan : Plan) (cards : Cardinalities)
    (hg : dataset.get_graph (env.format_graph_uri default_graph_uri url) = some g)
    (hs : dataset.is_stateless = false)
    (hp : plan_step env query (some nl) dataset (env.format_graph_uri default_graph_uri url) url
        = .ok (plan, cards))
    (hA : (env.engine plan ((g.quota : ℚ) / 1000) g.max_results).abort_reason = none)
    (hd : (env.engine plan ((g.quota : ℚ) / 1000) g.max_results).is_done = true) :
    (execute_query env query default_graph_uri (some nl) dataset url).deleteCalls = [nl]
    ∧ (execute_query env query default_graph_uri (some nl) dataset url).store
        = dataset.statefull_manager.delete_plan nl
    ∧ (execute_query env query default_graph_uri (some nl) dataset url).store.get_plan nl = none
    ∧ (execute_query env query2 default_graph_uri (some nl)
        { dataset with statefull_manager := dataset.statefull_manager.delete_plan nl } url).response
        = Except.error Exn.generic := by
  have hg2 : Dataset.get_graph
      { dataset with statefull_manager := dataset.statefull_manager.delete_plan nl }
      (env.format_graph_uri default_graph_uri url) = some g := hg
  have hp2 : plan_step env query2 (some nl)
      { dataset with statefull_manager := dataset.statefull_manager.delete_plan nl }
      (env.format_graph_uri default_graph_uri url) url = .error .generic := by
    simp [plan_step, hs, PlanStore.get_plan_delete_plan]
  refine ⟨?_, ?_, ?_, ?_⟩
  · simp [execute_query, hg, hp, hA, hd, hs]
  · simp [execute_query, hg, hp, hA, hd, hs]
  · simp [execute_query, hg, hp, hA, hd, hs, PlanStore.get_plan_delete_plan]
  · simp [execute_query, hg2, hp2]

/-- Witness for `stateful_completion_deletes_plan` at a concrete input. -/
theorem stateful_completion_deletes_plan_witness :
    dsC.get_graph (envA.format_graph_uri (some "g") "u") = some { quota := 1500, max_results := 10 }
    ∧ dsC.is_stateless = false
    ∧ plan_step envA "q" (some "id0") dsC (envA.format_graph_uri (some "g") "u") "u" = .ok (9, [])
    ∧ (envA.engine 9 ((((1500 : ℕ) : ℚ)) / 1000) 10).abort_reason = none
    ∧ (envA.engine 9 ((((1500 : ℕ) : ℚ)) / 1000) 10).is_done = true
    ∧ (execute_query envA "q" (some "g") (some "id0") dsC "u").deleteCalls = ["id0"] :=
  ⟨by decide, by decide, by decide, by decide, by decide,
    (stateful_completion_deletes_plan envA "q" "q" (some "g") "id0" dsC "u"
      { quota := 1500, max_results := 10 } 9 []
      (by decide) (by decide) (by decide) (by decide) (by decide)).1⟩

/-- Claim C6: in stateful mode, the continuation id used on a suspension is
the freshly generated UUID when the request carried no `next_link`, and the
request's own id when it did; in both cases the new serialized plan is saved
under that id, and looking the id up in the resulting store yields the new
token (overwriting any previously stored token). -/
theorem stateful_suspension_plan_id (env : Env) (query : String)
    (default_graph_uri : Option String) (next_link : Option Token)
    (dataset : Dataset) (url : String) (g : Graph) (plan : Plan) (cards : Cardinalities)
    (hg : dataset.get_graph (env.format_graph_uri default_graph_uri url) = some g)
    (hs : dataset.is_stateless = false)
    (hp : plan_step env query next_link dataset (env.format_graph_uri default_graph_uri url) url
        = .ok (plan, cards))
    (hA : (env.engine plan ((g.quota : ℚ) / 1000) g.max_results).abort_reason = none)
    (hd : (env.engine plan ((g.quota : ℚ) / 1000) g.max_results).is_done = false) :
    (execute_query env query default_graph_uri next_link dataset url).saveCalls
      = [(next_link.getD env.uuid,
          env.encode_saved_plan (env.engine plan ((g.quota : ℚ) / 1000) g.max_results).saved_plan)]
    ∧ (execute_query env query default_graph_uri next_link dataset url).response.map
        HttpResponse.nextPage = Except.ok (some (next_link.getD env.uuid))
    ∧ (execute_query env query default_graph_uri next_link dataset url).store
        = dataset.statefull_manager.save_plan (next_link.getD env.uuid)
            (env.encode_saved_plan
              (env.engine plan ((g.quota : ℚ) / 1000) g.max_results).saved_plan)
    ∧ (execute_query env query default_graph_uri next_link dataset url).store.get_plan
        (next_link.getD env.uuid)
        = some (env.encode_saved_plan
            (env.engine plan ((g.quota : ℚ) / 1000) g.max_results).saved_plan) := by
  rcases next_link with _ | nl
  · simp [execute_query, hg, hp, hA, hd, hs, HttpResponse.nextPage, PlanStore.get_plan_save_plan,
      Except.map]
  · simp [execute_query, hg, hp, hA, hd, hs, HttpResponse.nextPage, PlanStore.get_plan_save_plan,
      Except.map]

/-- Witness for `stateful_suspension_plan_id` at a concrete input (a
resumption: the id is reused and the stored token overwritten). -/
theorem stateful_suspension_plan_id_witness :
    dsC.get_graph (envB.format_graph_uri (some "g") "u") = some { quota := 1500, max_results := 10 }
    ∧ dsC.is_stateless = false
    ∧ plan_step envB "q" (some "id0") dsC (envB.format_graph_uri (some "g") "u") "u" = .ok (9, [])
    ∧ (envB.engine 9 ((((1500 : ℕ) : ℚ)) / 1000) 10).abort_reason = none
    ∧ (envB.engine 9 ((((1500 : ℕ) : ℚ)) / 1000) 10).is_done = false
    ∧ (execute_query envB "q" (some "g") (some "id0") dsC "u").store.get_plan "id0" = some "enc5" :=
  ⟨by decide, by decide, by decide, by decide, by decide,
    (stateful_suspension_plan_id envB "q" (some "g") (some "id0") dsC "u"
      { quota := 1500, max_results := 10 } 9 []
      (by decide) (by decide) (by decide) (by decide) (by decide)).2.2.2⟩

/-- Claim C7: in stateless mode the continuation token returned to and
accepted from a client is the encoded serialized plan itself (the accepted
token is decoded directly into the executed plan, the emitted token is the
encoded plan, and nothing is stored), while in stateful mode the token is an
id under which the encoded serialized plan is stored in and retrieved from
the saved-plan store. -/
theorem continuation_token_modes (env : Env) (query : String)
    (default_graph_uri : Option String) (dataset : Dataset) (url : String) (g : Graph)
    (hg : dataset.get_graph (env.format_graph_uri default_graph_uri url) = some g) :
    ((dataset.is_stateless = true) → ∀ t p, env.loadPlan t = some p →
      (execute_query env query default_graph_uri (some t) dataset url).engineCalls
        = [(p, (g.quota : ℚ) / 1000, g.max_results)])
    ∧ ((dataset.is_stateless = true) → ∀ (next_link : Option Token) plan cards,
        plan_step env query next_link dataset (env.format_graph_uri default_graph_uri url) url
          = .ok (plan, cards) →
        (env.engine plan ((g.quota : ℚ) / 1000) g.max_results).abort_reason = none →
        (env.engine plan ((g.quota : ℚ) / 1000) g.max_results).is_done = false →
        (execute_query env query default_graph_uri next_link dataset url).response.map
            HttpResponse.nextPage
          = Except.ok (some (env.encode_saved_plan
              (env.engine plan ((g.quota : ℚ) / 1000) g.max_results).saved_plan))
        ∧ (execute_query env query default_graph_uri next_link dataset url).saveCalls = []
        ∧ (execute_query env query default_graph_uri next_link dataset url).store
            = dataset.statefull_manager)
    ∧ ((dataset.is_stateless = false) → ∀ (next_link : Option Token) plan cards,
        plan_step env query next_link dataset (env.format_graph_uri default_graph_uri url) url
          = .ok (plan, cards) →
        (env.engine plan ((g.quota : ℚ) / 1000) g.max_results).abort_reason = none →
        (env.engine plan ((g.quota : ℚ) / 1000) g.max_results).is_done = false →
        (execute_query env query default_graph_uri next_link dataset url).response.map
            HttpResponse.nextPage
          = Except.ok (some (next_link.getD env.uuid))
        ∧ (execute_query env query default_graph_uri next_link dataset url).store.get_plan
            (next_link.getD env.uuid)
          = some (env.encode_saved_plan
              (env.engine plan ((g.quota : ℚ) / 1000) g.max_results).saved_plan))
    ∧ ((dataset.is_stateless = false) → ∀ id tok p,
        dataset.statefull_manager.get_plan id = some tok → env.loadPlan tok = some p →
        (execute_query env query default_graph_uri (some id) dataset url).engineCalls
          = [(p, (g.quota : ℚ) / 1000, g.max_results)]) := by
  refine ⟨?_, ?_, ?_, ?_⟩
  · intro hs t p hload
    have hp : plan_step env query (some t) dataset
        (env.format_graph_uri default_graph_uri url) url = .ok (p, []) := by
      simp [plan_step, hs, hload]
    exact engineCalls_eq_of_plan_step env query default_graph_uri (some t) dataset url g p []
      hg hp
  · intro hs next_link plan cards hp hA hd
    refine ⟨?_, ?_, ?_⟩ <;>
      simp [execute_query, hg, hp, hA, hd, hs, HttpResponse.nextPage, Except.map]
  · intro hs next_link plan cards hp hA hd
    rcases next_link with _ | nl <;>
      refine ⟨?_, ?_⟩ <;>
        simp [execute_query, hg, hp, hA, hd, hs, HttpResponse.nextPage, Except.map,
          PlanStore.get_plan_save_plan]
  · intro hs id tok p hget hload
    have hp : plan_step env query (some id) dataset
        (env.format_graph_uri default_graph_uri url) url = .ok (p, []) := by
      simp [plan_step, hs, hget, hload]
    exact engineCalls_eq_of_plan_step env query default_graph_uri (some id) dataset url g p []
      hg hp

/-- Witness for `continuation_token_modes` at a concrete input (stateless
dataset; the stateless conjuncts are exercised, the stateful ones are
vacuous there). -/
theorem continuation_token_modes_witness :
    dsA.get_graph (envB.format_graph_uri (some "g") "u") = some { quota := 1500, max_results := 10 }
    ∧ dsA.is_stateless = true
    ∧ envB.loadPlan "tok" = some 9
    ∧ (execute_query envB "q" (some "g") (some "tok") dsA "u").engineCalls
        = [(9, (((1500 : ℕ) : ℚ)) / 1000, 10)] :=
  ⟨by decide, by decide, by decide,
    (continuation_token_modes envB "q" (some "g") dsA "u"
        { quota := 1500, max_results := 10 } (by decide)).1 (by decide) "tok" 9 (by decide)⟩

/-- Claim C10: in `execute_query`, whenever a continuation (`next_link`) is
present in the request and the run produces a result page, the cardinalities
map included in the response stats is empty, since cardinalities are
populated only on the fresh-parse branch. -/
theorem continuation_stats_empty (env : Env) (query : String)
    (default_graph_uri : Option String) (nl : Token) (dataset : Dataset) (url : String)
    (g : Graph)
    (hg : dataset.get_graph (env.format_graph_uri default_graph_uri url) = some g) :
    ∀ b n s, (execute_query env query default_graph_uri (some nl) dataset url).response
        = Except.ok (HttpResponse.results b n s) → s.cardinalities = [] := by
  intro b n s hresp
  rcases hp : plan_step env query (some nl) dataset
      (env.format_graph_uri default_graph_uri url) url with e | ⟨plan, cards⟩
  · simp [execute_query, hg, hp] at hresp
  · have hcards : cards = [] := by
      simp only [plan_step] at hp
      rcases h1 : (if dataset.is_stateless then some nl
          else dataset.statefull_manager.get_plan nl) with _ | sp
      · simp only [h1] at hp
        exact absurd hp (by simp)
      · simp only [h1] at hp
        rcases h2 : env.loadPlan sp with _ | p
        · simp only [h2] at hp
          exact absurd hp (by simp)
        · simp only [h2, Except.ok.injEq, Prod.mk.injEq] at hp
          exact hp.2.symm
    subst hcards
    rcases hA : (env.engine plan ((g.quota : ℚ) / 1000) g.max_results).abort_reason with _ | reason
    · rcases hd : (env.engine plan ((g.quota : ℚ) / 1000) g.max_results).is_done with _ | _
      · rcases hs : dataset.is_stateless with _ | _
        · simp_all [execute_query, hg, hp, hA, hd, hs]
          obtain ⟨h1x, h2x, h3x⟩ := hresp
          subst h3x
          rfl
        · simp_all [execute_query, hg, hp, hA, hd, hs]
          obtain ⟨h1x, h2x, h3x⟩ := hresp
          subst h3x
          rfl
      · rcases hs : dataset.is_stateless with _ | _
        · simp_all [execute_query, hg, hp, hA, hd, hs]
          obtain ⟨h1x, h2x, h3x⟩ := hresp
          subst h3x
          rfl
        · simp_all [execute_query, hg, hp, hA, hd, hs]
          obtain ⟨h1x, h2x, h3x⟩ := hresp
          subst h3x
          rfl
    · simp_all [execute_query, hg, hp, hA]

/-- Witness for `continuation_stats_empty` at a concrete input. -/
theorem continuation_stats_empty_witness :
    dsC.get_graph (envB.format_graph_uri (some "g") "u") = some { quota := 1500, max_results := 10 }
    ∧ (execute_query envB "q" (some "g") (some "id0") dsC "u").response
        = Except.ok (HttpResponse.results [1] (some "id0") { cardinalities := [] })
    ∧ ({ cardinalities := [] } : Stats).cardinalities = [] :=
  ⟨by decide, by decide,
    continuation_stats_empty envB "q" (some "g") "id0" dsC "u"
      { quota := 1500, max_results := 10 } (by decide) [1] (some "id0")
      { cardinalities := [] } (by decide)⟩
